import Mathlib

set_option maxHeartbeats 1000000

/- Shallow embedding of the WiFi Tracker client session layer
   (src/frontend/js/api.js): the ApiClient class (token lifecycle, request
   dispatch, renewal) and the App WebSocket channel (reconnection, message
   dispatch).  The browser environment (fetch results, localStorage, the
   event loop) is made explicit: fetch outcomes are passed in as
   parameters, localStorage is a record, and the cooperative scheduler of
   the single-threaded JS runtime is a schedule of task indices. -/

/-- JSON values, as produced by response.json() in the browser. -/
inductive Json where
  | jnull
  | jbool (b : Bool)
  | jnum (n : Int)
  | jstr (s : String)
  | jarr (xs : List Json)
  | jobj (fields : List (String × Json))

/-- JS truthiness of a JSON value (used by the expression
    data.detail || "Request failed" in api.js line 74). -/
def jsTruthy : Json → Bool
  | .jnull => false
  | .jbool b => b
  | .jnum n => n != 0
  | .jstr s => s != ""
  | .jarr _ => true
  | .jobj _ => true

/-- JS string coercion of a JSON value, as performed by new Error(x).
    Rendering of nested arrays is not needed by any claim and is left
    shallow (the REST boundary sends detail as a string). -/
def jsonToString : Json → String
  | .jnull => "null"
  | .jbool true => "true"
  | .jbool false => "false"
  | .jnum n => toString n
  | .jstr s => s
  | .jarr _ => ""
  | .jobj _ => "[object Object]"

/-- JS property lookup data.k on a parsed JSON value (undefined on
    non-objects and missing keys, modelled as none). -/
def jlookup : Json → String → Option Json
  | .jobj fields, k => fields.lookup k
  | _, _ => none

/-- The two localStorage keys used by ApiClient
    (api.js lines 11, 16, 21-22, 88, 99, 130). -/
structure LocalStorage where
  access_token : Option String
  refresh_token : Option String
deriving DecidableEq

/-- In-memory state of an ApiClient instance: the this.token field plus the
    backing localStorage. -/
structure ClientState where
  token : Option String
  store : LocalStorage
deriving DecidableEq

/-- ApiClient constructor (api.js lines 9-12):
    this.token = localStorage.getItem(access_token). -/
def ApiClient.construct (store : LocalStorage) : ClientState :=
  ⟨store.access_token, store⟩

/-- ApiClient.setToken (api.js lines 14-17): sets the field and the
    access_token key together; the refresh_token key is untouched. -/
def ApiClient.setToken (s : ClientState) (t : String) : ClientState :=
  ⟨some t, ⟨some t, s.store.refresh_token⟩⟩

/-- ApiClient.clearToken (api.js lines 19-23): nulls the field and removes
    both localStorage keys. -/
def ApiClient.clearToken (_s : ClientState) : ClientState :=
  ⟨none, ⟨none, none⟩⟩

/-- JS truthiness of a getItem result or of this.token
    (null and the empty string are falsy). -/
def truthyTok : Option String → Bool
  | none => false
  | some s => s != ""

/-- The conditional Authorization header of api.js lines 33-35:
    present exactly when this.token is truthy. -/
def bearerHeader : Option String → Option String
  | none => none
  | some s => if s == "" then none else some ("Bearer " ++ s)

/-- A successful auth response body, shape fixed by the REST boundary:
    login and renewal return access_token and refresh_token fields
    (README/API contract; consumed at api.js lines 97-99 and 123-130). -/
structure AuthBody where
  access_token : String
  refresh_token : String
deriving DecidableEq

/-- Environment outcome of the renewal fetch issued at api.js line 92.
    resp carries response.ok and the result of response.json()
    (none when the body is not parseable JSON, which makes json() reject). -/
inductive RefreshFetch where
  | netFail
  | resp (ok : Bool) (body : Option AuthBody)
deriving DecidableEq

/-- Result of ApiClient.refreshToken: the returned boolean, the client state
    after the call, and how many renewal HTTP calls were issued. -/
structure RefreshResult where
  refreshed : Bool
  state : ClientState
  fetches : Nat
deriving DecidableEq

/-- ApiClient.refreshToken (api.js lines 87-107).  Reads the refresh token
    from localStorage; a falsy value short-circuits to false with no fetch.
    On an ok response it stores the new access token (setToken) and the new
    refresh token back to back with no await between them; every failure
    (network, non-ok status, unparseable body) returns false and leaves the
    state unchanged. -/
def ApiClient.refreshToken (s : ClientState) (env : RefreshFetch) : RefreshResult :=
  match s.store.refresh_token with
  | none => ⟨false, s, 0⟩
  | some rt =>
    if rt == "" then ⟨false, s, 0⟩
    else
      match env with
      | .netFail => ⟨false, s, 1⟩
      | .resp ok body =>
        if ok then
          match body with
          | none => ⟨false, s, 1⟩
          | some b =>
            let s1 := ApiClient.setToken s b.access_token
            ⟨true, ⟨s1.token, ⟨s1.store.access_token, some b.refresh_token⟩⟩, 1⟩
        else ⟨false, s, 1⟩

/-- An HTTP response as observed by handleResponse: status, content-type
    header, the value response.json() would resolve with (none when it
    would reject), and the value response.text() would resolve with. -/
structure HttpResponse where
  status : Nat
  contentType : Option String
  jsonBody : Option Json
  textBody : String

/-- response.ok per the fetch specification: status in 200..299. -/
def responseOk (status : Nat) : Bool :=
  200 ≤ status && status ≤ 299

/-- contentType && contentType.includes(application/json)
    (api.js line 70): null content-type is falsy. -/
def contentTypeHasJson : Option String → Bool
  | none => false
  | some ct => (ct.splitOn "application/json").length ≥ 2

/-- The JS expression data.detail || fallback (api.js lines 74 and 126). -/
def detailOr (data : Json) (fallback : String) : String :=
  match jlookup data "detail" with
  | some v => if jsTruthy v then jsonToString v else fallback
  | none => fallback

/-- The message of the error thrown at api.js line 74. -/
def detailMessage (data : Json) : String :=
  detailOr data "Request failed"

/-- The distinct failure outcomes a request can settle with; each
    constructor corresponds to one throw site in api.js.  (In JS these are
    Error objects distinguished by message and provenance.) -/
inductive ReqError where
  | sessionExpired             -- throw new Error(Session expired), line 52
  | httpError (msg : String)   -- throws at lines 74 and 81
  | parseFailure               -- response.json() rejection propagated
  | networkError (e : String)  -- fetch rejection rethrown at line 59
deriving DecidableEq

/-- The distinct success values handleResponse can resolve with. -/
inductive HandleResult where
  | nullValue                  -- return null, line 67 (status 204)
  | jsonValue (v : Json)       -- return data, line 77
  | textValue (t : String)     -- return response.text(), line 84

/-- ApiClient.handleResponse (api.js lines 63-85). -/
def ApiClient.handleResponse (r : HttpResponse) : Except ReqError HandleResult :=
  if r.status == 204 then .ok .nullValue
  else if contentTypeHasJson r.contentType then
    match r.jsonBody with
    | none => .error .parseFailure
    | some data =>
      if responseOk r.status then .ok (.jsonValue data)
      else .error (.httpError (detailMessage data))
  else if responseOk r.status then .ok (.textValue r.textBody)
  else .error (.httpError "Request failed")

/-- Environment outcome of one fetch of the requested endpoint. -/
inductive EndpointFetch where
  | netFail (e : String)
  | resp (r : HttpResponse)

/-- The environment of one ApiClient.request call: the response to the
    first attempt, to the renewal call (if one is issued), and to the
    replay (if one is issued). -/
structure ReqEnv where
  first : EndpointFetch
  refreshAttempt : RefreshFetch
  retry : EndpointFetch

/-- Observable trace of one request: how many fetches of the endpoint and
    of the renewal endpoint were issued, whether window.location.reload ran,
    and the Authorization headers sent. -/
structure ReqTrace where
  endpointFetches : Nat
  refreshFetches : Nat
  reloaded : Bool
  authHeaderFirst : Option String
  authHeaderRetry : Option String
deriving DecidableEq

/-- Result of one ApiClient.request call. -/
structure ReqResult where
  res : Except ReqError HandleResult
  state : ClientState
  trace : ReqTrace

/-- ApiClient.request (api.js lines 25-61).  Attaches the Authorization
    header when this.token is truthy; on a 401 drives refreshToken once:
    on success it rebuilds the header from the new this.token
    (unconditionally, line 46) and replays the request once, returning
    handleResponse of the replay; on failure it clears the token store,
    reloads the page and fails with the session-expired error.  A fetch
    rejection is rethrown to the caller unchanged. -/
def ApiClient.request (s : ClientState) (env : ReqEnv) : ReqResult :=
  let auth1 := bearerHeader s.token
  match env.first with
  | .netFail e => ⟨.error (.networkError e), s, ⟨1, 0, false, auth1, none⟩⟩
  | .resp r =>
    if r.status == 401 then
      let rr := ApiClient.refreshToken s env.refreshAttempt
      if rr.refreshed then
        let auth2 := some ("Bearer " ++ (rr.state.token.getD "null"))
        match env.retry with
        | .netFail e =>
          ⟨.error (.networkError e), rr.state, ⟨2, rr.fetches, false, auth1, auth2⟩⟩
        | .resp r2 =>
          ⟨ApiClient.handleResponse r2, rr.state, ⟨2, rr.fetches, false, auth1, auth2⟩⟩
      else
        ⟨.error .sessionExpired, ApiClient.clearToken rr.state,
          ⟨1, rr.fetches, true, auth1, none⟩⟩
    else
      ⟨ApiClient.handleResponse r, s, ⟨1, 0, false, auth1, none⟩⟩

/-- Environment outcome of the login fetch (api.js lines 115-121), sorted
    by which code path it drives: a network rejection, an unparseable
    body (response.json() rejects, line 123), a non-ok response whose
    parsed body feeds the thrown detail message (lines 125-127), or an ok
    response with the auth body that is persisted (lines 129-130). -/
inductive LoginFetch where
  | netFail (e : String)
  | parseFail
  | failResp (data : Json)
  | okResp (body : AuthBody)

/-- ApiClient.login (api.js lines 110-132).  Only the ok path mutates the
    client state: setToken plus the refresh_token write, back to back. -/
def ApiClient.login (s : ClientState) (env : LoginFetch) :
    Except ReqError AuthBody × ClientState :=
  match env with
  | .netFail e => (.error (.networkError e), s)
  | .parseFail => (.error .parseFailure, s)
  | .failResp data => (.error (.httpError (detailOr data "Login failed")), s)
  | .okResp b =>
    let s1 := ApiClient.setToken s b.access_token
    (.ok b, ⟨s1.token, ⟨s1.store.access_token, some b.refresh_token⟩⟩)

/-- One public ApiClient operation, with the environment responses it
    consumes. -/
inductive ClientOp where
  | setTok (t : String)
  | clearTok
  | doLogin (env : LoginFetch)
  | doRefresh (env : RefreshFetch)
  | doRequest (env : ReqEnv)

/-- Run a sequence of ApiClient operations from a state. -/
def runOps : List ClientOp → ClientState → ClientState
  | [], s => s
  | op :: rest, s =>
    let s1 :=
      match op with
      | .setTok t => ApiClient.setToken s t
      | .clearTok => ApiClient.clearToken s
      | .doLogin env => (ApiClient.login s env).2
      | .doRefresh env => (ApiClient.refreshToken s env).state
      | .doRequest env => (ApiClient.request s env).state
    runOps rest s1

/-- The mirroring invariant of claim C9: the this.token field agrees with
    the access_token key of the store. -/
def mirror (s : ClientState) : Prop :=
  s.token = s.store.access_token

/- ------------------------------------------------------------------ -/
/- Helper lemmas for the sequential ApiClient claims.                 -/
/- ------------------------------------------------------------------ -/

theorem mirror_refreshToken (s : ClientState) (env : RefreshFetch) (hs : mirror s) :
    mirror (ApiClient.refreshToken s env).state := by
  unfold ApiClient.refreshToken
  cases s.store.refresh_token with
  | none => exact hs
  | some rt =>
    simp only
    split
    · exact hs
    · cases env with
      | netFail => exact hs
      | resp ok body =>
        simp only
        split
        · cases body with
          | none => exact hs
          | some b => rfl
        · exact hs

theorem mirror_request (s : ClientState) (env : ReqEnv) (hs : mirror s) :
    mirror (ApiClient.request s env).state := by
  unfold ApiClient.request
  cases env.first with
  | netFail e => exact hs
  | resp r =>
    simp only
    split
    · split
      · cases env.retry with
        | netFail e => exact mirror_refreshToken s env.refreshAttempt hs
        | resp r2 => exact mirror_refreshToken s env.refreshAttempt hs
      · rfl
    · exact hs

theorem mirror_login (s : ClientState) (env : LoginFetch) (hs : mirror s) :
    mirror (ApiClient.login s env).2 := by
  cases env with
  | netFail e => exact hs
  | parseFail => exact hs
  | failResp data => exact hs
  | okResp b => rfl

/-- handleResponse of a 401 response never yields the session-expired
    error (the only throw site for it is api.js line 52). -/
theorem handleResponse_401_ne (r : HttpResponse) (h : r.status = 401) :
    ApiClient.handleResponse r ≠ Except.error ReqError.sessionExpired := by
  unfold ApiClient.handleResponse
  rw [h]
  simp only [show ((401 : Nat) == 204) = false from rfl, Bool.false_eq_true, if_false]
  split
  · cases hb : r.jsonBody with
    | none => exact fun hh => ReqError.noConfusion (Except.error.inj hh)
    | some data =>
      simp only [show responseOk 401 = false from rfl, Bool.false_eq_true, if_false]
      exact fun hh => ReqError.noConfusion (Except.error.inj hh)
  · simp only [show responseOk 401 = false from rfl, Bool.false_eq_true, if_false]
    exact fun hh => ReqError.noConfusion (Except.error.inj hh)

/- ------------------------------------------------------------------ -/
/- Claims about the request dispatcher (api.js lines 25-107).         -/
/- ------------------------------------------------------------------ -/

/-- Claim C2, counterexample: a request whose first attempt gets a 401,
    whose renewal succeeds, and whose replay again gets a 401 does NOT
    terminate with the session-expired outcome: the replay 401 flows
    through handleResponse, which throws the generic request-failed
    error. -/
theorem replay401_not_sessionExpired :
    (ApiClient.request ⟨some "tok", ⟨some "tok", some "ref"⟩⟩
        ⟨.resp ⟨401, none, none, ""⟩, .resp true (some ⟨"newA", "newR"⟩),
         .resp ⟨401, none, none, ""⟩⟩).res
      = Except.error (ReqError.httpError "Request failed") ∧
    ReqError.httpError "Request failed" ≠ ReqError.sessionExpired := by
  exact ⟨rfl, by decide⟩

/-- Claim C2, amended: such a request terminates after exactly one renewal
    attempt and one replay — never a second renewal or replay — and its
    outcome is handleResponse of the replay response (a generic
    request-failed error), not the session-expired outcome. -/
theorem replay401_terminates_once (s : ClientState) (env : ReqEnv)
    (r1 r2 : HttpResponse) (b : AuthBody)
    (h1 : env.first = EndpointFetch.resp r1) (h2 : r1.status = 401)
    (h3 : env.refreshAttempt = RefreshFetch.resp true (some b))
    (h4 : truthyTok s.store.refresh_token = true)
    (h5 : env.retry = EndpointFetch.resp r2) (h6 : r2.status = 401) :
    (ApiClient.request s env).res = ApiClient.handleResponse r2 ∧
    (ApiClient.request s env).res ≠ Except.error ReqError.sessionExpired ∧
    (ApiClient.request s env).trace.refreshFetches = 1 ∧
    (ApiClient.request s env).trace.endpointFetches = 2 := by
  cases hrt : s.store.refresh_token with
  | none => rw [hrt] at h4; exact absurd h4 (by simp [truthyTok])
  | some rt =>
    rw [hrt] at h4
    have h4' : rt ≠ "" := by simpa [truthyTok] using h4
    have hne : (rt == "") = false := beq_eq_false_iff_ne.mpr h4'
    have hrr : ApiClient.refreshToken s env.refreshAttempt =
        ⟨true, ⟨some b.access_token, ⟨some b.access_token, some b.refresh_token⟩⟩, 1⟩ := by
      unfold ApiClient.refreshToken
      rw [hrt, h3]
      simp [hne, ApiClient.setToken]
    have hreq : ApiClient.request s env =
        ⟨ApiClient.handleResponse r2,
         ⟨some b.access_token, ⟨some b.access_token, some b.refresh_token⟩⟩,
         ⟨2, 1, false, bearerHeader s.token, some ("Bearer " ++ b.access_token)⟩⟩ := by
      unfold ApiClient.request
      rw [h1, h5]
      simp [h2, hrr]
    rw [hreq]
    exact ⟨rfl, handleResponse_401_ne r2 h6, rfl, rfl⟩

/-- Claim C2, witness for the amended theorem at a concrete input. -/
theorem replay401_terminates_once_witness :
    (⟨.resp ⟨401, none, none, ""⟩, .resp true (some ⟨"newA", "newR"⟩),
      .resp ⟨401, some "application/json", some (Json.jobj []), ""⟩⟩ : ReqEnv).first
        = EndpointFetch.resp ⟨401, none, none, ""⟩ ∧
    truthyTok (⟨some "tok", ⟨some "tok", some "ref"⟩⟩ : ClientState).store.refresh_token = true ∧
    ((ApiClient.request ⟨some "tok", ⟨some "tok", some "ref"⟩⟩
        ⟨.resp ⟨401, none, none, ""⟩, .resp true (some ⟨"newA", "newR"⟩),
         .resp ⟨401, some "application/json", some (Json.jobj []), ""⟩⟩).res
       = ApiClient.handleResponse ⟨401, some "application/json", some (Json.jobj []), ""⟩ ∧
     (ApiClient.request ⟨some "tok", ⟨some "tok", some "ref"⟩⟩
        ⟨.resp ⟨401, none, none, ""⟩, .resp true (some ⟨"newA", "newR"⟩),
         .resp ⟨401, some "application/json", some (Json.jobj []), ""⟩⟩).res
       ≠ Except.error ReqError.sessionExpired ∧
     (ApiClient.request ⟨some "tok", ⟨some "tok", some "ref"⟩⟩
        ⟨.resp ⟨401, none, none, ""⟩, .resp true (some ⟨"newA", "newR"⟩),
         .resp ⟨401, some "application/json", some (Json.jobj []), ""⟩⟩).trace.refreshFetches = 1 ∧
     (ApiClient.request ⟨some "tok", ⟨some "tok", some "ref"⟩⟩
        ⟨.resp ⟨401, none, none, ""⟩, .resp true (some ⟨"newA", "newR"⟩),
         .resp ⟨401, some "application/json", some (Json.jobj []), ""⟩⟩).trace.endpointFetches = 2) :=
  ⟨rfl, rfl,
   replay401_terminates_once _ _ _ _ ⟨"newA", "newR"⟩ rfl rfl rfl rfl rfl rfl⟩

/-- Claim C3: a request whose renewal attempt fails (refresh credential
    rejected or absent) fails with the session-expired outcome; the token
    store is cleared of both credentials and the in-memory token is null,
    so a subsequent read of the access credential returns none. -/
theorem renewalFailure_sessionExpired (s : ClientState) (env : ReqEnv)
    (r : HttpResponse)
    (h1 : env.first = EndpointFetch.resp r) (h2 : r.status = 401)
    (h3 : (ApiClient.refreshToken s env.refreshAttempt).refreshed = false) :
    (ApiClient.request s env).res = Except.error ReqError.sessionExpired ∧
    (ApiClient.request s env).state.token = none ∧
    (ApiClient.request s env).state.store.access_token = none ∧
    (ApiClient.request s env).state.store.refresh_token = none := by
  have hreq : ApiClient.request s env =
      ⟨Except.error ReqError.sessionExpired,
       ApiClient.clearToken (ApiClient.refreshToken s env.refreshAttempt).state,
       ⟨1, (ApiClient.refreshToken s env.refreshAttempt).fetches, true,
        bearerHeader s.token, none⟩⟩ := by
    unfold ApiClient.request
    rw [h1]
    simp [h2, h3]
  rw [hreq]
  exact ⟨rfl, rfl, rfl, rfl⟩

/-- Claim C3, witness: renewal fails because the refresh credential is
    absent from the store. -/
theorem renewalFailure_sessionExpired_witness :
    (⟨.resp ⟨401, none, none, ""⟩, .netFail, .netFail "x"⟩ : ReqEnv).first
      = EndpointFetch.resp ⟨401, none, none, ""⟩ ∧
    (ApiClient.refreshToken ⟨some "tok", ⟨some "tok", none⟩⟩
      (⟨.resp ⟨401, none, none, ""⟩, .netFail, .netFail "x"⟩ : ReqEnv).refreshAttempt).refreshed
      = false ∧
    ((ApiClient.request ⟨some "tok", ⟨some "tok", none⟩⟩
        ⟨.resp ⟨401, none, none, ""⟩, .netFail, .netFail "x"⟩).res
       = Except.error ReqError.sessionExpired ∧
     (ApiClient.request ⟨some "tok", ⟨some "tok", none⟩⟩
        ⟨.resp ⟨401, none, none, ""⟩, .netFail, .netFail "x"⟩).state.token = none ∧
     (ApiClient.request ⟨some "tok", ⟨some "tok", none⟩⟩
        ⟨.resp ⟨401, none, none, ""⟩, .netFail, .netFail "x"⟩).state.store.access_token = none ∧
     (ApiClient.request ⟨some "tok", ⟨some "tok", none⟩⟩
        ⟨.resp ⟨401, none, none, ""⟩, .netFail, .netFail "x"⟩).state.store.refresh_token = none) :=
  ⟨rfl, rfl, renewalFailure_sessionExpired _ _ ⟨401, none, none, ""⟩ rfl rfl rfl⟩

/-- Claim C7: a request whose first fetch fails at the network layer is
    surfaced to the caller as the network-error outcome carrying the
    rejection, no replay or renewal fetch is issued (exactly one endpoint
    fetch, zero renewal fetches), and the session state is unchanged. -/
theorem networkError_no_retry (s : ClientState) (env : ReqEnv) (e : String)
    (h : env.first = EndpointFetch.netFail e) :
    (ApiClient.request s env).res = Except.error (ReqError.networkError e) ∧
    (ApiClient.request s env).state = s ∧
    (ApiClient.request s env).trace.endpointFetches = 1 ∧
    (ApiClient.request s env).trace.refreshFetches = 0 := by
  have hreq : ApiClient.request s env =
      ⟨Except.error (ReqError.networkError e), s,
       ⟨1, 0, false, bearerHeader s.token, none⟩⟩ := by
    unfold ApiClient.request
    rw [h]
  rw [hreq]
  exact ⟨rfl, rfl, rfl, rfl⟩

/-- Claim C7, witness. -/
theorem networkError_no_retry_witness :
    (⟨.netFail "Failed to fetch", .netFail, .netFail "x"⟩ : ReqEnv).first
      = EndpointFetch.netFail "Failed to fetch" ∧
    ((ApiClient.request ⟨some "tok", ⟨some "tok", some "ref"⟩⟩
        ⟨.netFail "Failed to fetch", .netFail, .netFail "x"⟩).res
       = Except.error (ReqError.networkError "Failed to fetch") ∧
     (ApiClient.request ⟨some "tok", ⟨some "tok", some "ref"⟩⟩
        ⟨.netFail "Failed to fetch", .netFail, .netFail "x"⟩).state
       = ⟨some "tok", ⟨some "tok", some "ref"⟩⟩ ∧
     (ApiClient.request ⟨some "tok", ⟨some "tok", some "ref"⟩⟩
        ⟨.netFail "Failed to fetch", .netFail, .netFail "x"⟩).trace.endpointFetches = 1 ∧
     (ApiClient.request ⟨some "tok", ⟨some "tok", some "ref"⟩⟩
        ⟨.netFail "Failed to fetch", .netFail, .netFail "x"⟩).trace.refreshFetches = 0) :=
  ⟨rfl, networkError_no_retry _ _ "Failed to fetch" rfl⟩

/-- Claim C8: a no-content (204) response resolves to the explicit null
    result, which is a value distinct from an empty JSON object. -/
theorem noContent_null_distinct (r : HttpResponse) (h : r.status = 204) :
    ApiClient.handleResponse r = Except.ok HandleResult.nullValue ∧
    HandleResult.nullValue ≠ HandleResult.jsonValue (Json.jobj []) := by
  constructor
  · simp [ApiClient.handleResponse, h]
  · exact fun hh => HandleResult.noConfusion hh

/-- Claim C8, witness. -/
theorem noContent_null_distinct_witness :
    (⟨204, some "application/json", none, ""⟩ : HttpResponse).status = 204 ∧
    (ApiClient.handleResponse ⟨204, some "application/json", none, ""⟩
       = Except.ok HandleResult.nullValue ∧
     HandleResult.nullValue ≠ HandleResult.jsonValue (Json.jobj [])) :=
  ⟨rfl, noContent_null_distinct ⟨204, some "application/json", none, ""⟩ rfl⟩

/-- Claim C9: after every sequence of ApiClient operations starting from
    the constructor, the in-memory token field equals the value stored
    under the access_token key (same string, or both absent). -/
theorem token_mirrors_store (store : LocalStorage) (ops : List ClientOp) :
    (runOps ops (ApiClient.construct store)).token
      = (runOps ops (ApiClient.construct store)).store.access_token := by
  suffices h : ∀ s, mirror s → mirror (runOps ops s) from
    h (ApiClient.construct store) rfl
  induction ops with
  | nil => exact fun s hs => hs
  | cons op rest ih =>
    intro s hs
    cases op with
    | setTok t => exact ih _ rfl
    | clearTok => exact ih _ rfl
    | doLogin env => exact ih _ (mirror_login s env hs)
    | doRefresh env => exact ih _ (mirror_refreshToken s env hs)
    | doRequest env => exact ih _ (mirror_request s env hs)

/-- Claim C10: a request issued with no stored access credential omits the
    Authorization header; a 401 still enters the renewal path, and with no
    stored refresh credential either the renewal reports failure without
    issuing a renewal call, the store is cleared, and the caller receives
    the session-expired outcome rather than the 401 response body. -/
theorem unauth401_sessionExpired (store : LocalStorage) (env : ReqEnv)
    (r : HttpResponse)
    (h0 : store.access_token = none) (h1 : store.refresh_token = none)
    (h2 : env.first = EndpointFetch.resp r) (h3 : r.status = 401) :
    (ApiClient.request (ApiClient.construct store) env).trace.authHeaderFirst = none ∧
    (ApiClient.request (ApiClient.construct store) env).res
      = Except.error ReqError.sessionExpired ∧
    (ApiClient.request (ApiClient.construct store) env).trace.refreshFetches = 0 ∧
    (ApiClient.request (ApiClient.construct store) env).state.store.access_token = none ∧
    (ApiClient.request (ApiClient.construct store) env).state.store.refresh_token = none := by
  have hrr : ApiClient.refreshToken (ApiClient.construct store) env.refreshAttempt =
      ⟨false, ApiClient.construct store, 0⟩ := by
    unfold ApiClient.refreshToken
    simp [ApiClient.construct, h1]
  have hreq : ApiClient.request (ApiClient.construct store) env =
      ⟨Except.error ReqError.sessionExpired,
       ApiClient.clearToken (ApiClient.construct store),
       ⟨1, 0, true, bearerHeader (ApiClient.construct store).token, none⟩⟩ := by
    unfold ApiClient.request
    rw [h2]
    simp [h3, hrr]
  rw [hreq]
  refine ⟨?_, rfl, rfl, rfl, rfl⟩
  simp [ApiClient.construct, h0, bearerHeader]

/-- Claim C10, witness. -/
theorem unauth401_sessionExpired_witness :
    (⟨none, none⟩ : LocalStorage).access_token = none ∧
    (⟨none, none⟩ : LocalStorage).refresh_token = none ∧
    (⟨.resp ⟨401, none, none, ""⟩, .netFail, .netFail "x"⟩ : ReqEnv).first
      = EndpointFetch.resp ⟨401, none, none, ""⟩ ∧
    ((ApiClient.request (ApiClient.construct ⟨none, none⟩)
        ⟨.resp ⟨401, none, none, ""⟩, .netFail, .netFail "x"⟩).trace.authHeaderFirst = none ∧
     (ApiClient.request (ApiClient.construct ⟨none, none⟩)
        ⟨.resp ⟨401, none, none, ""⟩, .netFail, .netFail "x"⟩).res
       = Except.error ReqError.sessionExpired ∧
     (ApiClient.request (ApiClient.construct ⟨none, none⟩)
        ⟨.resp ⟨401, none, none, ""⟩, .netFail, .netFail "x"⟩).trace.refreshFetches = 0 ∧
     (ApiClient.request (ApiClient.construct ⟨none, none⟩)
        ⟨.resp ⟨401, none, none, ""⟩, .netFail, .netFail "x"⟩).state.store.access_token = none ∧
     (ApiClient.request (ApiClient.construct ⟨none, none⟩)
        ⟨.resp ⟨401, none, none, ""⟩, .netFail, .netFail "x"⟩).state.store.refresh_token = none) :=
  ⟨rfl, rfl, rfl,
   unauth401_sessionExpired ⟨none, none⟩ _ ⟨401, none, none, ""⟩ rfl rfl rfl rfl⟩

/- ------------------------------------------------------------------ -/
/- Cooperative concurrency model for logically concurrent requests.   -/
/- The JS runtime is single threaded: code between two awaits runs    -/
/- atomically.  One request (api.js lines 25-61 together with the      -/
/- refreshToken it calls, lines 87-107) has these suspension points:  -/
/- the first fetch (line 38), the renewal fetch (line 92), the        -/
/- renewal response.json() (line 97), the resumption of request after -/
/- await this.refreshToken() (line 44 — the await yields to the       -/
/- microtask queue even when refreshToken returns without fetching),  -/
/- and the replay fetch (line 47).  handleResponse touches no shared  -/
/- state, so its awaits are collapsed into the final segment.  A      -/
/- schedule is a list of task indices; each scheduled index runs the  -/
/- named task's next atomic segment against the shared ClientState.   -/
/- ------------------------------------------------------------------ -/

/-- Where one request task is suspended. -/
inductive Phase where
  | ready                                          -- request not yet started
  | awaitFirst                                     -- first fetch in flight
  | awaitRefresh                                   -- renewal fetch in flight
  | awaitJson                                      -- renewal response.json() pending
  | refreshDone (refreshed : Bool)                 -- request resumption after
                                                   -- await this.refreshToken() queued
  | awaitRetry                                     -- replay fetch in flight
  | finished (res : Except ReqError HandleResult)  -- settled

/-- One logically concurrent request: its environment responses, its
    current suspension point, and the Authorization header its replay
    carried (none until a replay is issued). -/
structure TaskState where
  env : ReqEnv
  phase : Phase
  retryAuth : Option String

/-- The whole client process: the shared ApiClient state, the concurrent
    request tasks, and the renewal calls issued so far (each entry is the
    refresh credential that call carried). -/
structure Sys where
  client : ClientState
  tasks : List TaskState
  refreshLog : List String

/-- Run one task's next atomic segment against the shared client state.
    Returns the new shared state, the new task state, and the renewal
    calls issued during the segment. -/
def stepTask (c : ClientState) (t : TaskState) :
    ClientState × TaskState × List String :=
  match t.phase with
  | .ready =>
      -- segment api.js lines 26-41: build headers from the shared token,
      -- issue the first fetch, suspend
      (c, { t with phase := .awaitFirst }, [])
  | .awaitFirst =>
    match t.env.first with
    | .netFail e =>
        -- lines 57-60: rejection rethrown
        (c, { t with phase := .finished (.error (.networkError e)) }, [])
    | .resp r =>
      if r.status == 401 then
        -- line 44 calls refreshToken; lines 88-89 read the shared
        -- refresh credential and either return false without fetching
        -- (the await at line 44 still yields, so request resumes in a
        -- later microtask) or issue the renewal fetch and suspend
        match c.store.refresh_token with
        | none => (c, { t with phase := .refreshDone false }, [])
        | some rt =>
          if rt == "" then (c, { t with phase := .refreshDone false }, [])
          else (c, { t with phase := .awaitRefresh }, [rt])
      else
        -- line 56: no renewal path; handleResponse settles the task
        (c, { t with phase := .finished (ApiClient.handleResponse r) }, [])
  | .awaitRefresh =>
    match t.env.refreshAttempt with
    | .netFail =>
        -- lines 102-106 return false; request resumes at line 45 in a
        -- later microtask
        (c, { t with phase := .refreshDone false }, [])
    | .resp ok _ =>
      if ok then
        -- line 97: await response.json(), suspend
        (c, { t with phase := .awaitJson }, [])
      else
        (c, { t with phase := .refreshDone false }, [])
  | .awaitJson =>
    match t.env.refreshAttempt with
    | .resp _ (some b) =>
        -- lines 98-100: both stores written back to back with no await
        -- between them, then return true; the await at line 44 resumes
        -- request in a later microtask
        let c1 := ApiClient.setToken c b.access_token
        let c2 : ClientState := ⟨c1.token, ⟨c1.store.access_token, some b.refresh_token⟩⟩
        (c2, { t with phase := .refreshDone true }, [])
    | _ =>
        -- json() rejected: refreshToken returns false
        (c, { t with phase := .refreshDone false }, [])
  | .refreshDone refreshed =>
    if refreshed then
      -- line 46 rebuilds the header from whatever this.token holds NOW
      -- (possibly another task's renewal result) and line 47 issues the
      -- replay fetch
      (c, { t with phase := .awaitRetry,
                   retryAuth := some ("Bearer " ++ (c.token.getD "null")) }, [])
    else
      -- lines 50-52: clearToken, reload, throw Session expired
      (ApiClient.clearToken c,
       { t with phase := .finished (.error .sessionExpired) }, [])
  | .awaitRetry =>
    match t.env.retry with
    | .netFail e => (c, { t with phase := .finished (.error (.networkError e)) }, [])
    | .resp r2 => (c, { t with phase := .finished (ApiClient.handleResponse r2) }, [])
  | .finished _ => (c, t, [])

/-- Run the task named by the index (indices past the end are no-ops). -/
def sysStep (sys : Sys) (i : Nat) : Sys :=
  match sys.tasks.get? i with
  | none => sys
  | some t =>
    let r := stepTask sys.client t
    ⟨r.1, sys.tasks.set i r.2.1, sys.refreshLog ++ r.2.2⟩

/-- Run a schedule: each entry names the task whose next segment runs. -/
def runSched (sys : Sys) (sched : List Nat) : Sys :=
  sched.foldl sysStep sys

/-- The initial system: tasks built from their environments, none started,
    no renewal calls issued. -/
def initSys (c : ClientState) (envs : List ReqEnv) : Sys :=
  ⟨c, envs.map (fun e => ⟨e, .ready, none⟩), []⟩

/-- Whether a task at this phase has already issued its renewal call
    (meaningful for runs where every first response is a 401 and every
    renewal response is ok, so the only path to finished passes through
    the renewal). -/
def issuedCount : Phase → Nat
  | .ready => 0
  | .awaitFirst => 0
  | .awaitRefresh => 1
  | .awaitJson => 1
  | .refreshDone _ => 1
  | .awaitRetry => 1
  | .finished _ => 1

/-- In a good run no renewal ever reports failure, so no task is ever
    suspended at a failed-renewal resumption. -/
def notFailedRenewal : Phase → Bool
  | .refreshDone false => false
  | _ => true

/-- A task environment in which the first attempt is answered 401 and the
    renewal is answered ok with a well-formed, non-empty credential pair. -/
def goodEnvB (e : ReqEnv) : Bool :=
  (match e.first with
   | .resp r => r.status == 401
   | .netFail _ => false) &&
  (match e.refreshAttempt with
   | .resp true (some b) => !(b.access_token == "") && !(b.refresh_token == "")
   | _ => false)

/-- Whether a task has settled. -/
def isFinished : Phase → Bool
  | .finished _ => true
  | _ => false

/-- Whether every task of the system has settled. -/
def allFinished (sys : Sys) : Bool :=
  sys.tasks.all fun t => isFinished t.phase

/-- Setting an index keeps membership within the old list plus the new
    element. -/
theorem mem_set_cases {α : Type} :
    ∀ (l : List α) (i : Nat) (b a : α), a ∈ l.set i b → a ∈ l ∨ a = b := by
  intro l
  induction l with
  | nil => intro i b a h; simp at h
  | cons x xs ih =>
    intro i b a h
    cases i with
    | zero =>
      simp only [List.set_cons_zero, List.mem_cons] at h
      rcases h with h | h
      · right; exact h
      · left; exact List.mem_cons_of_mem _ h
    | succ n =>
      simp only [List.set_cons_succ, List.mem_cons] at h
      rcases h with h | h
      · left; subst h; exact List.mem_cons_self _ _
      · rcases ih n b a h with h' | h'
        · left; exact List.mem_cons_of_mem _ h'
        · right; exact h'

/-- How the sum of a Nat-valued map changes when one index is replaced. -/
theorem sum_map_set {α : Type} (f : α → Nat) :
    ∀ (l : List α) (i : Nat) (t a : α), l.get? i = some t →
      ((l.set i a).map f).sum + f t = (l.map f).sum + f a := by
  intro l
  induction l with
  | nil => intro i t a h; simp at h
  | cons x xs ih =>
    intro i t a h
    cases i with
    | zero =>
      simp only [List.get?_cons_zero, Option.some.injEq] at h
      subst h
      simp only [List.set_cons_zero, List.map_cons, List.sum_cons]
      omega
    | succ n =>
      simp only [List.get?_cons_succ] at h
      have := ih n t a h
      simp only [List.set_cons_succ, List.map_cons, List.sum_cons]
      omega

/-- Bookkeeping for renewal-call counting across one task segment. -/
theorem log_sum_update (tasks : List TaskState) (i : Nat) (t tNew : TaskState)
    (log addl : List String)
    (hget : tasks.get? i = some t)
    (hlen : log.length = (tasks.map fun x => issuedCount x.phase).sum)
    (hinc : addl.length + issuedCount t.phase = issuedCount tNew.phase) :
    (log ++ addl).length = ((tasks.set i tNew).map fun x => issuedCount x.phase).sum := by
  have hs := sum_map_set (fun x => issuedCount x.phase) tasks i t tNew hget
  simp only at hs
  simp only [List.length_append]
  omega

/-- The invariant behind the amended claim C1: when every task will be
    answered 401 and every renewal succeeds with non-empty credentials,
    the shared refresh credential stays truthy and the renewal calls
    issued so far are exactly the tasks past their first-response
    segment. -/
def goodSys (sys : Sys) : Prop :=
  (∀ t ∈ sys.tasks, goodEnvB t.env = true) ∧
  (∀ t ∈ sys.tasks, notFailedRenewal t.phase = true) ∧
  truthyTok sys.client.store.refresh_token = true ∧
  sys.refreshLog.length = (sys.tasks.map fun t => issuedCount t.phase).sum

/-- Unpack a good task environment. -/
theorem goodEnv_split (e : ReqEnv) (h : goodEnvB e = true) :
    (∃ r, e.first = EndpointFetch.resp r ∧ (r.status == 401) = true) ∧
    (∃ b, e.refreshAttempt = RefreshFetch.resp true (some b) ∧
      (b.access_token == "") = false ∧ (b.refresh_token == "") = false) := by
  unfold goodEnvB at h
  rw [Bool.and_eq_true] at h
  obtain ⟨h1, h2⟩ := h
  constructor
  · cases hf : e.first with
    | netFail e' => rw [hf] at h1; simp at h1
    | resp r => exact ⟨r, rfl, by rw [hf] at h1; exact h1⟩
  · cases ha : e.refreshAttempt with
    | netFail => rw [ha] at h2; simp at h2
    | resp ok body =>
      cases ok with
      | false => rw [ha] at h2; simp at h2
      | true =>
        cases body with
        | none => rw [ha] at h2; simp at h2
        | some b =>
          rw [ha] at h2
          simp only [Bool.and_eq_true, Bool.not_eq_true'] at h2
          exact ⟨b, rfl, h2.1, h2.2⟩

/-- Unpack a truthy stored credential. -/
theorem truthy_split (o : Option String) (h : truthyTok o = true) :
    ∃ rt, o = some rt ∧ (rt == "") = false := by
  cases o with
  | none => simp [truthyTok] at h
  | some rt =>
    refine ⟨rt, rfl, ?_⟩
    cases he : (rt == "") with
    | false => rfl
    | true => simp [truthyTok, bne, he] at h

/-- Reassemble the good-run invariant after one task segment. -/
theorem goodSys_assemble (sys : Sys) (i : Nat) (t tNew : TaskState)
    (c' : ClientState) (addl : List String)
    (hget : sys.tasks.get? i = some t)
    (hg : ∀ x ∈ sys.tasks, goodEnvB x.env = true)
    (hnfAll : ∀ x ∈ sys.tasks, notFailedRenewal x.phase = true)
    (henv : tNew.env = t.env)
    (hnfNew : notFailedRenewal tNew.phase = true)
    (ht' : truthyTok c'.store.refresh_token = true)
    (hlen : sys.refreshLog.length = (sys.tasks.map fun x => issuedCount x.phase).sum)
    (hinc : addl.length + issuedCount t.phase = issuedCount tNew.phase) :
    goodSys ⟨c', sys.tasks.set i tNew, sys.refreshLog ++ addl⟩ := by
  refine ⟨?_, ?_, ht',
    log_sum_update sys.tasks i t tNew sys.refreshLog addl hget hlen hinc⟩
  · intro x hx
    rcases mem_set_cases _ _ _ _ hx with hx' | hx'
    · exact hg x hx'
    · subst hx'
      rw [henv]
      exact hg t (List.get?_mem hget)
  · intro x hx
    rcases mem_set_cases _ _ _ _ hx with hx' | hx'
    · exact hnfAll x hx'
    · subst hx'
      exact hnfNew

/-- One scheduler step preserves the good-run invariant. -/
theorem goodSys_step (sys : Sys) (i : Nat) (h : goodSys sys) :
    goodSys (sysStep sys i) := by
  obtain ⟨hg, hnf, ht, hlen⟩ := h
  cases hget : sys.tasks.get? i with
  | none =>
    unfold sysStep
    rw [hget]
    exact ⟨hg, hnf, ht, hlen⟩
  | some t =>
    obtain ⟨env, ph, ra⟩ := t
    have hgood : goodEnvB env = true := hg _ (List.get?_mem hget)
    obtain ⟨⟨r, hef, hr401⟩, ⟨b, hea, hba, hbr⟩⟩ := goodEnv_split env hgood
    obtain ⟨rt, hrt, hrtne⟩ := truthy_split _ ht
    cases ph with
    | ready =>
      have hstep : sysStep sys i =
          ⟨sys.client, sys.tasks.set i ⟨env, .awaitFirst, ra⟩, sys.refreshLog ++ []⟩ := by
        unfold sysStep
        rw [hget]
        rfl
      rw [hstep]
      exact goodSys_assemble sys i _ _ _ _ hget hg hnf rfl rfl ht hlen rfl
    | awaitFirst =>
      have hstep : sysStep sys i =
          ⟨sys.client, sys.tasks.set i ⟨env, .awaitRefresh, ra⟩, sys.refreshLog ++ [rt]⟩ := by
        unfold sysStep
        rw [hget]
        simp only [stepTask, hef, hr401, hrt, hrtne, if_true, Bool.false_eq_true, if_false]
      rw [hstep]
      exact goodSys_assemble sys i _ _ _ _ hget hg hnf rfl rfl ht hlen rfl
    | awaitRefresh =>
      have hstep : sysStep sys i =
          ⟨sys.client, sys.tasks.set i ⟨env, .awaitJson, ra⟩, sys.refreshLog ++ []⟩ := by
        unfold sysStep
        rw [hget]
        simp only [stepTask, hea, if_true]
      rw [hstep]
      exact goodSys_assemble sys i _ _ _ _ hget hg hnf rfl rfl ht hlen rfl
    | awaitJson =>
      have hstep : sysStep sys i =
          ⟨⟨some b.access_token, ⟨some b.access_token, some b.refresh_token⟩⟩,
           sys.tasks.set i ⟨env, .refreshDone true, ra⟩,
           sys.refreshLog ++ []⟩ := by
        unfold sysStep
        rw [hget]
        simp only [stepTask, hea, ApiClient.setToken]
      rw [hstep]
      refine goodSys_assemble sys i _ _ _ _ hget hg hnf rfl rfl ?_ hlen rfl
      simp [truthyTok, bne, hbr]
    | refreshDone refreshed =>
      have hb : notFailedRenewal (Phase.refreshDone refreshed) = true :=
        hnf _ (List.get?_mem hget)
      cases refreshed with
      | false => simp [notFailedRenewal] at hb
      | true =>
        have hstep : sysStep sys i =
            ⟨sys.client,
             sys.tasks.set i
               ⟨env, .awaitRetry, some ("Bearer " ++ (sys.client.token.getD "null"))⟩,
             sys.refreshLog ++ []⟩ := by
          unfold sysStep
          rw [hget]
          rfl
        rw [hstep]
        exact goodSys_assemble sys i _ _ _ _ hget hg hnf rfl rfl ht hlen rfl
    | awaitRetry =>
      cases henvr : env.retry with
      | netFail e =>
        have hstep : sysStep sys i =
            ⟨sys.client,
             sys.tasks.set i ⟨env, .finished (.error (.networkError e)), ra⟩,
             sys.refreshLog ++ []⟩ := by
          unfold sysStep
          rw [hget]
          simp only [stepTask, henvr]
        rw [hstep]
        exact goodSys_assemble sys i _ _ _ _ hget hg hnf rfl rfl ht hlen rfl
      | resp r2 =>
        have hstep : sysStep sys i =
            ⟨sys.client,
             sys.tasks.set i ⟨env, .finished (ApiClient.handleResponse r2), ra⟩,
             sys.refreshLog ++ []⟩ := by
          unfold sysStep
          rw [hget]
          simp only [stepTask, henvr]
        rw [hstep]
        exact goodSys_assemble sys i _ _ _ _ hget hg hnf rfl rfl ht hlen rfl
    | finished res =>
      have hstep : sysStep sys i =
          ⟨sys.client, sys.tasks.set i ⟨env, .finished res, ra⟩, sys.refreshLog ++ []⟩ := by
        unfold sysStep
        rw [hget]
        rfl
      rw [hstep]
      exact goodSys_assemble sys i _ _ _ _ hget hg hnf rfl rfl ht hlen rfl

/-- Every schedule preserves the good-run invariant. -/
theorem goodSys_run (sys : Sys) (sched : List Nat) (h : goodSys sys) :
    goodSys (runSched sys sched) := by
  induction sched generalizing sys with
  | nil => exact h
  | cons i rest ih => exact ih (sysStep sys i) (goodSys_step sys i h)

/-- Scheduler steps never change the number of tasks. -/
theorem tasks_length_step (sys : Sys) (i : Nat) :
    (sysStep sys i).tasks.length = sys.tasks.length := by
  cases hget : sys.tasks.get? i with
  | none => unfold sysStep; rw [hget]
  | some t => unfold sysStep; rw [hget]; simp [List.length_set]

/-- Schedules never change the number of tasks. -/
theorem tasks_length_run (sys : Sys) (sched : List Nat) :
    (runSched sys sched).tasks.length = sys.tasks.length := by
  induction sched generalizing sys with
  | nil => rfl
  | cons i rest ih =>
    rw [show runSched sys (i :: rest) = runSched (sysStep sys i) rest from rfl,
      ih, tasks_length_step]

/-- When every task has settled, every task counts one issued renewal. -/
theorem sum_issued_allFinished :
    ∀ (l : List TaskState), (l.all fun t => isFinished t.phase) = true →
      (l.map fun t => issuedCount t.phase).sum = l.length := by
  intro l
  induction l with
  | nil => intro _; rfl
  | cons x xs ih =>
    intro h
    rw [List.all_cons, Bool.and_eq_true] at h
    obtain ⟨hx, hxs⟩ := h
    have hx1 : issuedCount x.phase = 1 := by
      cases hp : x.phase with
      | finished res => rfl
      | ready => rw [hp] at hx; simp [isFinished] at hx
      | awaitFirst => rw [hp] at hx; simp [isFinished] at hx
      | awaitRefresh => rw [hp] at hx; simp [isFinished] at hx
      | awaitJson => rw [hp] at hx; simp [isFinished] at hx
      | refreshDone b => rw [hp] at hx; simp [isFinished] at hx
      | awaitRetry => rw [hp] at hx; simp [isFinished] at hx
    simp only [List.map_cons, List.sum_cons, List.length_cons, hx1, ih hxs]
    omega

/-- Fresh tasks count no issued renewals. -/
theorem sum_issued_init :
    ∀ (l : List ReqEnv),
      ((l.map fun e => (⟨e, .ready, none⟩ : TaskState)).map fun t => issuedCount t.phase).sum
        = 0 := by
  intro l
  induction l with
  | nil => rfl
  | cons e es ih =>
    rw [List.map_cons, List.map_cons, List.sum_cons]
    have h0 : issuedCount (⟨e, .ready, none⟩ : TaskState).phase = 0 := rfl
    rw [h0, Nat.zero_add]
    exact ih

/-- The initial system of a good run satisfies the invariant. -/
theorem goodSys_init (c : ClientState) (envs : List ReqEnv)
    (h1 : envs.all goodEnvB = true)
    (h2 : truthyTok c.store.refresh_token = true) :
    goodSys (initSys c envs) := by
  refine ⟨?_, ?_, h2, ?_⟩
  · intro t htm
    simp only [initSys, List.mem_map] at htm
    obtain ⟨e, he, rfl⟩ := htm
    exact List.all_eq_true.mp h1 e he
  · intro t htm
    simp only [initSys, List.mem_map] at htm
    obtain ⟨e, he, rfl⟩ := htm
    rfl
  · simp only [initSys, sum_issued_init, List.length_nil]

/-- A request environment whose first attempt is answered 401, whose
    renewal is answered ok with the pair (a, r), and whose replay is
    answered 200. -/
def envC1 (a r : String) : ReqEnv :=
  ⟨.resp ⟨401, none, none, ""⟩, .resp true (some ⟨a, r⟩), .resp ⟨200, none, none, "ok"⟩⟩

/-- Two logically concurrent requests over a shared client that holds the
    credential pair (tok0, ref0). -/
def sysC1 : Sys :=
  initSys ⟨some "tok0", ⟨some "tok0", some "ref0"⟩⟩ [envC1 "a1" "r1", envC1 "a2" "r2"]

/-- Claim C1, counterexample: two concurrent requests each receive a 401
    at the same logical time (schedule 0,1 issues both first fetches,
    then 0,1 delivers both 401 responses before either renewal resolves).
    After that prefix BOTH tasks have a renewal call in flight — the log
    holds two renewal calls, both carrying the same refresh credential
    ref0 — and after the full schedule both requests complete with two
    renewal calls issued, not exactly one.  Moreover the completed
    requests did not replay with a single renewal's credential, nor each
    with its own: task 0's renewal produced the access credential a1, yet
    both replays carried a2, because task 1's renewal overwrote the
    shared token between task 0's renewal writes and the header rebuild
    at api.js line 46 (the microtask boundary of the await at line 44). -/
theorem singleRenewal_counterexample :
    (runSched sysC1 [0, 1, 0, 1]).refreshLog = ["ref0", "ref0"] ∧
    ((runSched sysC1 [0, 1, 0, 1]).tasks.map fun t => t.phase)
      = [Phase.awaitRefresh, Phase.awaitRefresh] ∧
    allFinished (runSched sysC1 [0, 1, 0, 1, 0, 1, 0, 1, 0, 1, 0, 1]) = true ∧
    (runSched sysC1 [0, 1, 0, 1, 0, 1, 0, 1, 0, 1, 0, 1]).refreshLog.length = 2 ∧
    ((runSched sysC1 [0, 1, 0, 1, 0, 1, 0, 1, 0, 1, 0, 1]).tasks.map
        fun t => t.retryAuth)
      = [some "Bearer a2", some "Bearer a2"] :=
  ⟨rfl, rfl, rfl, rfl, rfl⟩

/-- Claim C1, amended: the client has no renewal deduplication — each
    request that receives an authorization failure issues its own renewal
    call.  For every schedule of concurrent requests whose first responses
    are all 401 and whose renewals all succeed with non-empty pairs, the
    renewal calls issued so far equal the number of requests past their
    first-response segment; in particular, once all N requests have
    completed, exactly N renewal calls were issued — one per request, not
    one in total.  (Which credential each replay then carries depends on
    the interleaving: the header is rebuilt from the shared token after a
    microtask boundary, so it may come from another request's renewal, as
    the counterexample shows.) -/
theorem renewal_per_request (c : ClientState) (envs : List ReqEnv) (sched : List Nat)
    (h1 : envs.all goodEnvB = true)
    (h2 : truthyTok c.store.refresh_token = true) :
    (runSched (initSys c envs) sched).refreshLog.length
      = ((runSched (initSys c envs) sched).tasks.map fun t => issuedCount t.phase).sum ∧
    (allFinished (runSched (initSys c envs) sched) = true →
      (runSched (initSys c envs) sched).refreshLog.length = envs.length) := by
  obtain ⟨hg, hnf, ht, hlen⟩ := goodSys_run (initSys c envs) sched (goodSys_init c envs h1 h2)
  refine ⟨hlen, fun hfin => ?_⟩
  unfold allFinished at hfin
  rw [hlen, sum_issued_allFinished _ hfin, tasks_length_run]
  simp [initSys]

/-- Claim C1, witness for the amended theorem: the two-request system of
    the counterexample run to completion. -/
theorem renewal_per_request_witness :
    ([envC1 "a1" "r1", envC1 "a2" "r2"].all goodEnvB = true) ∧
    (truthyTok (⟨some "tok0", ⟨some "tok0", some "ref0"⟩⟩ : ClientState).store.refresh_token
      = true) ∧
    ((runSched (initSys ⟨some "tok0", ⟨some "tok0", some "ref0"⟩⟩
          [envC1 "a1" "r1", envC1 "a2" "r2"]) [0, 1, 0, 1, 0, 1, 0, 1, 0, 1, 0, 1]).refreshLog.length
       = ((runSched (initSys ⟨some "tok0", ⟨some "tok0", some "ref0"⟩⟩
          [envC1 "a1" "r1", envC1 "a2" "r2"]) [0, 1, 0, 1, 0, 1, 0, 1, 0, 1, 0, 1]).tasks.map
            fun t => issuedCount t.phase).sum ∧
     (allFinished (runSched (initSys ⟨some "tok0", ⟨some "tok0", some "ref0"⟩⟩
          [envC1 "a1" "r1", envC1 "a2" "r2"]) [0, 1, 0, 1, 0, 1, 0, 1, 0, 1, 0, 1]) = true →
       (runSched (initSys ⟨some "tok0", ⟨some "tok0", some "ref0"⟩⟩
          [envC1 "a1" "r1", envC1 "a2" "r2"]) [0, 1, 0, 1, 0, 1, 0, 1, 0, 1, 0, 1]).refreshLog.length
         = ([envC1 "a1" "r1", envC1 "a2" "r2"] : List ReqEnv).length)) :=
  ⟨rfl, rfl,
   renewal_per_request ⟨some "tok0", ⟨some "tok0", some "ref0"⟩⟩
     [envC1 "a1" "r1", envC1 "a2" "r2"] [0, 1, 0, 1, 0, 1, 0, 1, 0, 1, 0, 1] rfl rfl⟩

/-- The credential pair carried by a task's renewal response body, if
    any. -/
def refreshBodyOf (e : ReqEnv) : Option AuthBody :=
  match e.refreshAttempt with
  | .resp _ b => b
  | .netFail => none

/-- The access/refresh pair currently in the token store. -/
def storedPair (c : ClientState) : Option String × Option String :=
  (c.store.access_token, c.store.refresh_token)

/-- A pair that entered the store whole: the initial pair, the cleared
    pair, or the pair of one renewal response body.  A mixed pair (access
    credential of one origin with the refresh credential of another) is
    not of this form unless the two origins coincide. -/
def allowedPair (init : Option String × Option String) (envs : List ReqEnv)
    (p : Option String × Option String) : Prop :=
  p = init ∨ p = (none, none) ∨
    ∃ e ∈ envs, ∃ b, refreshBodyOf e = some b ∧
      p = (some b.access_token, some b.refresh_token)

/-- The pair invariant, along with stability of the task environments. -/
def pairInv (init : Option String × Option String) (envs : List ReqEnv)
    (sys : Sys) : Prop :=
  allowedPair init envs (storedPair sys.client) ∧ ∀ t ∈ sys.tasks, t.env ∈ envs

/-- One scheduler step preserves the pair invariant: both credential
    writes of a renewal happen inside one atomic segment (api.js lines
    98-99 have no await between them), and clearToken clears both. -/
theorem pairInv_step (init : Option String × Option String) (envs : List ReqEnv)
    (sys : Sys) (i : Nat) (h : pairInv init envs sys) :
    pairInv init envs (sysStep sys i) := by
  obtain ⟨hp, he⟩ := h
  cases hget : sys.tasks.get? i with
  | none => unfold sysStep; rw [hget]; exact ⟨hp, he⟩
  | some t =>
    obtain ⟨env, ph, ra⟩ := t
    have henvm : env ∈ envs := he _ (List.get?_mem hget)
    have hmem : ∀ (tNew : TaskState), tNew.env = env →
        ∀ x ∈ sys.tasks.set i tNew, x.env ∈ envs := by
      intro tNew hEnvEq x hx
      rcases mem_set_cases _ _ _ _ hx with hx' | hx'
      · exact he x hx'
      · subst hx'; rw [hEnvEq]; exact henvm
    cases ph with
    | ready =>
      have hstep : sysStep sys i =
          ⟨sys.client, sys.tasks.set i ⟨env, .awaitFirst, ra⟩, sys.refreshLog ++ []⟩ := by
        unfold sysStep; rw [hget]; rfl
      rw [hstep]
      exact ⟨hp, hmem _ rfl⟩
    | awaitFirst =>
      cases hef : env.first with
      | netFail e =>
        have hstep : sysStep sys i =
            ⟨sys.client,
             sys.tasks.set i ⟨env, .finished (.error (.networkError e)), ra⟩,
             sys.refreshLog ++ []⟩ := by
          unfold sysStep; rw [hget]; simp only [stepTask, hef]
        rw [hstep]
        exact ⟨hp, hmem _ rfl⟩
      | resp r =>
        cases h401 : (r.status == 401) with
        | false =>
          have hstep : sysStep sys i =
              ⟨sys.client,
               sys.tasks.set i ⟨env, .finished (ApiClient.handleResponse r), ra⟩,
               sys.refreshLog ++ []⟩ := by
            unfold sysStep; rw [hget]
            simp only [stepTask, hef, h401, Bool.false_eq_true, if_false]
          rw [hstep]
          exact ⟨hp, hmem _ rfl⟩
        | true =>
          cases hrt : sys.client.store.refresh_token with
          | none =>
            have hstep : sysStep sys i =
                ⟨sys.client, sys.tasks.set i ⟨env, .refreshDone false, ra⟩,
                 sys.refreshLog ++ []⟩ := by
              unfold sysStep; rw [hget]
              simp only [stepTask, hef, h401, hrt, if_true]
            rw [hstep]
            exact ⟨hp, hmem _ rfl⟩
          | some rt =>
            cases hre : (rt == "") with
            | true =>
              have hstep : sysStep sys i =
                  ⟨sys.client, sys.tasks.set i ⟨env, .refreshDone false, ra⟩,
                   sys.refreshLog ++ []⟩ := by
                unfold sysStep; rw [hget]
                simp only [stepTask, hef, h401, hrt, hre, if_true]
              rw [hstep]
              exact ⟨hp, hmem _ rfl⟩
            | false =>
              have hstep : sysStep sys i =
                  ⟨sys.client, sys.tasks.set i ⟨env, .awaitRefresh, ra⟩,
                   sys.refreshLog ++ [rt]⟩ := by
                unfold sysStep; rw [hget]
                simp only [stepTask, hef, h401, hrt, hre, if_true,
                  Bool.false_eq_true, if_false]
              rw [hstep]
              exact ⟨hp, hmem _ rfl⟩
    | awaitRefresh =>
      cases hea : env.refreshAttempt with
      | netFail =>
        have hstep : sysStep sys i =
            ⟨sys.client, sys.tasks.set i ⟨env, .refreshDone false, ra⟩,
             sys.refreshLog ++ []⟩ := by
          unfold sysStep; rw [hget]; simp only [stepTask, hea]
        rw [hstep]
        exact ⟨hp, hmem _ rfl⟩
      | resp ok body =>
        cases ok with
        | true =>
          have hstep : sysStep sys i =
              ⟨sys.client, sys.tasks.set i ⟨env, .awaitJson, ra⟩,
               sys.refreshLog ++ []⟩ := by
            unfold sysStep; rw [hget]; simp only [stepTask, hea, if_true]
          rw [hstep]
          exact ⟨hp, hmem _ rfl⟩
        | false =>
          have hstep : sysStep sys i =
              ⟨sys.client, sys.tasks.set i ⟨env, .refreshDone false, ra⟩,
               sys.refreshLog ++ []⟩ := by
            unfold sysStep; rw [hget]
            simp only [stepTask, hea, Bool.false_eq_true, if_false]
          rw [hstep]
          exact ⟨hp, hmem _ rfl⟩
    | awaitJson =>
      cases hea : env.refreshAttempt with
      | netFail =>
        have hstep : sysStep sys i =
            ⟨sys.client, sys.tasks.set i ⟨env, .refreshDone false, ra⟩,
             sys.refreshLog ++ []⟩ := by
          unfold sysStep; rw [hget]; simp only [stepTask, hea]
        rw [hstep]
        exact ⟨hp, hmem _ rfl⟩
      | resp ok body =>
        cases body with
        | none =>
          have hstep : sysStep sys i =
              ⟨sys.client, sys.tasks.set i ⟨env, .refreshDone false, ra⟩,
               sys.refreshLog ++ []⟩ := by
            unfold sysStep; rw [hget]; simp only [stepTask, hea]
          rw [hstep]
          exact ⟨hp, hmem _ rfl⟩
        | some b =>
          have hstep : sysStep sys i =
              ⟨⟨some b.access_token, ⟨some b.access_token, some b.refresh_token⟩⟩,
               sys.tasks.set i ⟨env, .refreshDone true, ra⟩,
               sys.refreshLog ++ []⟩ := by
            unfold sysStep; rw [hget]
            simp only [stepTask, hea, ApiClient.setToken]
          rw [hstep]
          refine ⟨Or.inr (Or.inr ⟨env, henvm, b, ?_, rfl⟩), hmem _ rfl⟩
          simp [refreshBodyOf, hea]
    | refreshDone refreshed =>
      cases refreshed with
      | true =>
        have hstep : sysStep sys i =
            ⟨sys.client,
             sys.tasks.set i
               ⟨env, .awaitRetry, some ("Bearer " ++ (sys.client.token.getD "null"))⟩,
             sys.refreshLog ++ []⟩ := by
          unfold sysStep; rw [hget]; rfl
        rw [hstep]
        exact ⟨hp, hmem _ rfl⟩
      | false =>
        have hstep : sysStep sys i =
            ⟨ApiClient.clearToken sys.client,
             sys.tasks.set i ⟨env, .finished (.error .sessionExpired), ra⟩,
             sys.refreshLog ++ []⟩ := by
          unfold sysStep; rw [hget]; rfl
        rw [hstep]
        exact ⟨Or.inr (Or.inl rfl), hmem _ rfl⟩
    | awaitRetry =>
      cases her : env.retry with
      | netFail e =>
        have hstep : sysStep sys i =
            ⟨sys.client,
             sys.tasks.set i ⟨env, .finished (.error (.networkError e)), ra⟩,
             sys.refreshLog ++ []⟩ := by
          unfold sysStep; rw [hget]; simp only [stepTask, her]
        rw [hstep]
        exact ⟨hp, hmem _ rfl⟩
      | resp r2 =>
        have hstep : sysStep sys i =
            ⟨sys.client,
             sys.tasks.set i ⟨env, .finished (ApiClient.handleResponse r2), ra⟩,
             sys.refreshLog ++ []⟩ := by
          unfold sysStep; rw [hget]; simp only [stepTask, her]
        rw [hstep]
        exact ⟨hp, hmem _ rfl⟩
    | finished res =>
      have hstep : sysStep sys i =
          ⟨sys.client, sys.tasks.set i ⟨env, .finished res, ra⟩,
           sys.refreshLog ++ []⟩ := by
        unfold sysStep; rw [hget]; rfl
      rw [hstep]
      exact ⟨hp, hmem _ rfl⟩

/-- Every schedule preserves the pair invariant. -/
theorem pairInv_run (init : Option String × Option String) (envs : List ReqEnv)
    (sys : Sys) (sched : List Nat) (h : pairInv init envs sys) :
    pairInv init envs (runSched sys sched) := by
  induction sched generalizing sys with
  | nil => exact h
  | cons i rest ih => exact ih (sysStep sys i) (pairInv_step init envs sys i h)

/-- Claim C4: at every suspension point of every schedule of logically
    concurrent requests — i.e. in every reachable state of the cooperative
    model — the stored access and refresh credentials form a matched pair:
    the initial pair, the cleared pair, or the pair of a single renewal
    response taken together.  No reachable state holds a mixed
    old-access/new-refresh (or new-access/old-refresh) pair. -/
theorem credential_pair_atomic (c : ClientState) (envs : List ReqEnv)
    (sched : List Nat) :
    allowedPair (storedPair c) envs
      (storedPair (runSched (initSys c envs) sched).client) := by
  have hinit : pairInv (storedPair c) envs (initSys c envs) := by
    refine ⟨Or.inl rfl, ?_⟩
    intro t htm
    simp only [initSys, List.mem_map] at htm
    obtain ⟨e, hee, rfl⟩ := htm
    exact hee
  exact (pairInv_run (storedPair c) envs (initSys c envs) sched hinit).1

/- ------------------------------------------------------------------ -/
/- The App WebSocket channel (api.js lines 583-629).                  -/
/- ------------------------------------------------------------------ -/

/-- Observable state of the channel process: a connection attempt in
    progress, an open socket, a closed socket with the 5-second reconnect
    timer pending (scheduled by the onclose handler, line 597), or dead
    with no socket and no pending timer (the catch branch of
    connectWebSocket, lines 609-612, which updates the status but
    schedules nothing). -/
inductive ChanState where
  | connecting
  | opened
  | closedTimer
  | deadNoTimer
deriving DecidableEq

/-- App.connectWebSocket (api.js lines 583-613): the WebSocket
    constructor either throws synchronously — caught at line 609, no
    retry scheduled — or yields a connecting socket with the handlers
    installed. -/
def App.connectWebSocket (ctorFails : Bool) : ChanState :=
  if ctorFails then .deadNoTimer else .connecting

/-- Events the environment can deliver to the channel: the socket
    handshake completing (onopen), a socket error (onerror, which only
    updates the status display), the socket closing (onclose — fired on
    drop, server close, and failed handshake), and the pending reconnect
    timer firing, whose connectWebSocket call may itself throw. -/
inductive ChanEvent where
  | onopen
  | onerror
  | onclose
  | timerFire (ctorFails : Bool)
deriving DecidableEq

/-- One channel transition; none means the event cannot occur in that
    state (no socket to fire handlers, or no timer pending). -/
def chanStep : ChanState → ChanEvent → Option ChanState
  | .connecting, .onopen => some .opened
  | .connecting, .onerror => some .connecting
  | .connecting, .onclose => some .closedTimer
  | .opened, .onerror => some .opened
  | .opened, .onclose => some .closedTimer
  | .closedTimer, .timerFire b => some (App.connectWebSocket b)
  | _, _ => none

/-- Run a sequence of environment events (impossible events occur
    nowhere, so they leave the state unchanged). -/
def runChan (s : ChanState) (evs : List ChanEvent) : ChanState :=
  evs.foldl (fun st e => (chanStep st e).getD st) s

/-- As long as no connection attempt throws synchronously, the channel
    never reaches the dead state. -/
theorem chanStep_ne_dead (s : ChanState) (e : ChanEvent)
    (hs : s ≠ ChanState.deadNoTimer) (he : e ≠ ChanEvent.timerFire true) :
    (chanStep s e).getD s ≠ ChanState.deadNoTimer := by
  cases s with
  | deadNoTimer => exact absurd rfl hs
  | connecting =>
    cases e with
    | onopen => decide
    | onerror => decide
    | onclose => decide
    | timerFire b => cases b <;> decide
  | opened =>
    cases e with
    | onopen => decide
    | onerror => decide
    | onclose => decide
    | timerFire b => cases b <;> decide
  | closedTimer =>
    cases e with
    | onopen => decide
    | onerror => decide
    | onclose => decide
    | timerFire b =>
      cases b with
      | true => exact absurd rfl he
      | false => decide

/-- Event-list version of chanStep_ne_dead. -/
theorem runChan_ne_dead :
    ∀ (evs : List ChanEvent) (s : ChanState), s ≠ ChanState.deadNoTimer →
      ChanEvent.timerFire true ∉ evs →
      runChan s evs ≠ ChanState.deadNoTimer := by
  intro evs
  induction evs with
  | nil => intro s hs _; exact hs
  | cons e rest ih =>
    intro s hs hmem
    have hmem' : ChanEvent.timerFire true ∉ rest :=
      fun hc => hmem (List.mem_cons_of_mem _ hc)
    have hne : e ≠ ChanEvent.timerFire true :=
      fun hc => hmem (hc ▸ List.mem_cons_self _ _)
    exact ih ((chanStep s e).getD s) (chanStep_ne_dead s e hs hne) hmem'

/-- Claim C5, counterexample: the dead state is reachable from Open — the
    socket closes, the reconnect timer fires, and the connection
    constructor throws synchronously — and in the dead state no event
    applies at all (the list covers all five ChanEvent values: the three
    handler events and the timer with either constructor outcome), so no
    reconnection attempt is ever scheduled again from this non-Open
    state. -/
theorem ctorFailure_no_reconnect :
    runChan ChanState.opened [ChanEvent.onclose, ChanEvent.timerFire true]
      = ChanState.deadNoTimer ∧
    ([ChanEvent.onopen, ChanEvent.onerror, ChanEvent.onclose,
      ChanEvent.timerFire false, ChanEvent.timerFire true].all
        fun e => (chanStep ChanState.deadNoTimer e).isNone) = true :=
  ⟨rfl, rfl⟩

/-- Claim C5, amended: every close of the socket — drop, server close, or
    error followed by close, whether from Open or from a failed handshake
    — schedules a reconnection attempt after the fixed delay, and as long
    as no connectWebSocket call throws synchronously the channel retries
    indefinitely and never reaches the dead state; but a synchronous
    constructor exception leaves the channel disconnected with no
    scheduled attempt. -/
theorem reconnect_after_close (evs : List ChanEvent)
    (h : ChanEvent.timerFire true ∉ evs) :
    runChan ChanState.connecting evs ≠ ChanState.deadNoTimer ∧
    chanStep ChanState.opened ChanEvent.onclose = some ChanState.closedTimer ∧
    chanStep ChanState.connecting ChanEvent.onclose = some ChanState.closedTimer ∧
    chanStep ChanState.closedTimer (ChanEvent.timerFire false)
      = some ChanState.connecting := by
  refine ⟨?_, rfl, rfl, rfl⟩
  exact runChan_ne_dead evs ChanState.connecting (by decide) h

/-- Claim C5, witness for the amended theorem: a drop, a reconnect, and a
    successful handshake. -/
theorem reconnect_after_close_witness :
    (ChanEvent.timerFire true ∉
      [ChanEvent.onclose, ChanEvent.timerFire false, ChanEvent.onopen]) ∧
    (runChan ChanState.connecting
        [ChanEvent.onclose, ChanEvent.timerFire false, ChanEvent.onopen]
      ≠ ChanState.deadNoTimer ∧
     chanStep ChanState.opened ChanEvent.onclose = some ChanState.closedTimer ∧
     chanStep ChanState.connecting ChanEvent.onclose = some ChanState.closedTimer ∧
     chanStep ChanState.closedTimer (ChanEvent.timerFire false)
       = some ChanState.connecting) :=
  ⟨by decide,
   reconnect_after_close [ChanEvent.onclose, ChanEvent.timerFire false, ChanEvent.onopen]
     (by decide)⟩

/- ------------------------------------------------------------------ -/
/- Message dispatch (api.js lines 605-607 and 615-629).               -/
/- ------------------------------------------------------------------ -/

/-- The handler the switch of App.handleWebSocketMessage dispatches a
    message type to (each type has exactly one handler; unknown types
    fall through the switch and are ignored). -/
inductive Handler where
  | newAlert      -- App.handleNewAlert, case alert
  | deviceUpdate  -- App.handleDeviceUpdate, case device_update
  | scanUpdate    -- App.handleScanUpdate, case scan_update
deriving DecidableEq

/-- The switch of App.handleWebSocketMessage (api.js lines 618-628). -/
def handlerFor (t : String) : Option Handler :=
  if t == "alert" then some .newAlert
  else if t == "device_update" then some .deviceUpdate
  else if t == "scan_update" then some .scanUpdate
  else none

/-- An inbound channel frame; mtype embeds the type field of the JSON
    frame. -/
structure InMsg where
  mtype : String
  data : Json

/-- State of the channel's event loop while delivering messages: the
    handler invocations so far (message index and handler), the uncaught
    exceptions reported to the console, and whether the socket is open. -/
structure LoopState where
  log : List (Nat × Handler)
  uncaught : Nat
  socketOpen : Bool

/-- One onmessage event-loop task (api.js lines 605-607): JSON.parse,
    then the switch invokes the single handler registered for the type.
    Per the HTML event-loop semantics an exception thrown by the handler
    terminates only this task: it is reported (counted here) and neither
    closes the socket nor unbinds onmessage. -/
def runMessageTask (throws : Nat → Bool) (i : Nat) (m : InMsg)
    (st : LoopState) : LoopState :=
  match handlerFor m.mtype with
  | none => st
  | some h =>
    ⟨st.log ++ [(i, h)], st.uncaught + (if throws i then 1 else 0), st.socketOpen⟩

/-- Deliver the messages in arrival order, one event-loop task each. -/
def processFrom (throws : Nat → Bool) (i : Nat) (msgs : List InMsg)
    (st : LoopState) : LoopState :=
  match msgs with
  | [] => st
  | m :: rest => processFrom throws (i + 1) rest (runMessageTask throws i m st)

/-- Deliver a whole inbound message sequence starting from an open
    socket with an empty log. -/
def processMessages (throws : Nat → Bool) (msgs : List InMsg) : LoopState :=
  processFrom throws 0 msgs ⟨[], 0, true⟩

/-- The deliveries the switch prescribes: every message whose type has a
    registered handler, in arrival order. -/
def expectedDeliveries (i : Nat) : List InMsg → List (Nat × Handler)
  | [] => []
  | m :: rest =>
    match handlerFor m.mtype with
    | some h => (i, h) :: expectedDeliveries (i + 1) rest
    | none => expectedDeliveries (i + 1) rest

/-- Delivery is insensitive to handler exceptions, and the socket stays
    open. -/
theorem processFrom_spec (throws : Nat → Bool) :
    ∀ (msgs : List InMsg) (i : Nat) (st : LoopState),
      (processFrom throws i msgs st).log = st.log ++ expectedDeliveries i msgs ∧
      (processFrom throws i msgs st).socketOpen = st.socketOpen := by
  intro msgs
  induction msgs with
  | nil => intro i st; simp [processFrom, expectedDeliveries]
  | cons m rest ih =>
    intro i st
    cases hh : handlerFor m.mtype with
    | none =>
      have hrm : runMessageTask throws i m st = st := by
        simp [runMessageTask, hh]
      have hex : expectedDeliveries i (m :: rest) = expectedDeliveries (i + 1) rest := by
        simp [expectedDeliveries, hh]
      obtain ⟨hl, ho⟩ := ih (i + 1) st
      refine ⟨?_, ?_⟩
      · show (processFrom throws (i + 1) rest (runMessageTask throws i m st)).log = _
        rw [hrm, hl, hex]
      · show (processFrom throws (i + 1) rest (runMessageTask throws i m st)).socketOpen = _
        rw [hrm, ho]
    | some h =>
      have hrm : runMessageTask throws i m st =
          ⟨st.log ++ [(i, h)], st.uncaught + (if throws i then 1 else 0),
           st.socketOpen⟩ := by
        simp [runMessageTask, hh]
      have hex : expectedDeliveries i (m :: rest)
          = (i, h) :: expectedDeliveries (i + 1) rest := by
        simp [expectedDeliveries, hh]
      obtain ⟨hl, ho⟩ := ih (i + 1) (runMessageTask throws i m st)
      refine ⟨?_, ?_⟩
      · show (processFrom throws (i + 1) rest (runMessageTask throws i m st)).log = _
        rw [hl, hrm, hex]
        simp [List.append_assoc]
      · show (processFrom throws (i + 1) rest (runMessageTask throws i m st)).socketOpen = _
        rw [ho, hrm]

/-- Claim C6: for every inbound message sequence and every pattern of
    handler exceptions, every message with a registered handler is
    delivered to its handler in arrival order — the delivery log equals
    the exception-free log, so an exception thrown by one handler
    invocation prevents no delivery of that message or of subsequent
    messages (including to the handler that threw) — and the socket stays
    open.  (In the source each message type has exactly one handler, so
    there are no further handlers of the same message to block.) -/
theorem handler_exception_isolation (throws : Nat → Bool) (msgs : List InMsg) :
    (processMessages throws msgs).log = expectedDeliveries 0 msgs ∧
    (processMessages throws msgs).log = (processMessages (fun _ => false) msgs).log ∧
    (processMessages throws msgs).socketOpen = true := by
  obtain ⟨hl, ho⟩ := processFrom_spec throws msgs 0 ⟨[], 0, true⟩
  obtain ⟨hl2, _⟩ := processFrom_spec (fun _ => false) msgs 0 ⟨[], 0, true⟩
  refine ⟨?_, ?_, ?_⟩
  · unfold processMessages
    rw [hl]
    simp
  · unfold processMessages
    rw [hl, hl2]
  · unfold processMessages
    rw [ho]
